import Mathlib

/-!
Shallow embedding of the cycles game server (`src/src/server/server.cpp`) and
the random bot client (`src/src/client/client_randomio.cpp`).

The grid/collision simulation (`GameModel`), and the helper functions declared
in `api.h` / `utils.h` (`getDirectionVector`, `getDirectionValue`,
`getDirectionFromValue`, `GameState` accessors), are not under `src/`; where a
definition models such missing code it is marked `Modelled from the spec:` in
its doc comment.  Randomness (`std::mt19937` through
`std::uniform_int_distribution`) is embedded as an explicit stream of draws;
socket outcomes are embedded as explicit oracles.
-/

namespace Cycles

/-- Player identifier.  Modelled from the spec: an opaque, unique, stable
identifier; embedded as a natural number. -/
abbrev Id := Nat

/-- Integer grid position, as in the repository's `Vec2 { int x; int y; }`. -/
structure Position where
  x : Int
  y : Int
deriving DecidableEq, Repr

instance : Add Position := ⟨fun a b => ⟨a.x + b.x, a.y + b.y⟩⟩

/-- The four movement directions. -/
inductive Direction where
  | up
  | down
  | left
  | right
deriving DecidableEq, Repr

/-- Modelled from the spec: `getDirectionVector` (declared in the repository's
`utils.h`, not under `src/`) maps each of the four discrete directions to a
unit displacement vector. -/
def getDirectionVector : Direction → Position
  | .up => ⟨0, -1⟩
  | .down => ⟨0, 1⟩
  | .left => ⟨-1, 0⟩
  | .right => ⟨1, 0⟩

/-- Modelled from the spec: `getDirectionValue` (declared in `utils.h`, not
under `src/`) maps a direction to its wire code in 0..3. -/
def getDirectionValue : Direction → Int
  | .up => 0
  | .down => 1
  | .left => 2
  | .right => 3

/-- Modelled from the spec: one concrete instance of `getDirectionFromValue`
(declared in `utils.h`, not under `src/`), decoding codes 0..3.  The spec does
not fix its behaviour outside 0..3, so all theorems are parameterized over an
arbitrary decoder `decode : Int → Direction`; this instance serves for
concrete evaluations. -/
def getDirectionFromValue (v : Int) : Direction :=
  if v = 0 then .up
  else if v = 1 then .down
  else if v = 2 then .left
  else .right

/-- Modelled from the spec: the slice of the client's `GameState` (from
`api.h`, not under `src/`) that `is_valid_move` consults — grid dimensions,
the known player positions, the set of occupied (trail) cells, and the frame
number. -/
structure GameState where
  gridWidth : Int
  gridHeight : Int
  playerPositions : List Position
  occupied : List Position
  frameNumber : Int
deriving Repr

/-- Modelled from the spec: a position is inside the grid iff it lies in
`[0, gridWidth) × [0, gridHeight)`. -/
def GameState.isInsideGrid (gs : GameState) (p : Position) : Bool :=
  decide (0 ≤ p.x) && decide (p.x < gs.gridWidth) &&
    decide (0 ≤ p.y) && decide (p.y < gs.gridHeight)

/-- Modelled from the spec: a cell is empty iff it carries no trail. -/
def GameState.isCellEmpty (gs : GameState) (p : Position) : Bool :=
  decide (p ∉ gs.occupied)

/-- The slice of the client's `Player` that `decideMove` consults. -/
structure Player where
  position : Position
deriving Repr

/-- Embedding of `BotClient::is_valid_move` (`client_randomio.cpp` lines
81-108): the move's target cell must be inside the grid, must not coincide
with any known player position, and must be free of trail. -/
def is_valid_move (gs : GameState) (my_player : Player) (direction : Direction) : Bool :=
  let new_pos := my_player.position + getDirectionVector direction
  if !(gs.isInsideGrid new_pos) then false
  else if decide (new_pos ∈ gs.playerPositions) then false
  else if !(gs.isCellEmpty new_pos) then false
  else true

/-- Outcome of one `decideMove` call, with the full trace of random draws and
of the values passed to `getDirectionFromValue`.  `result = .error n` embeds
the `std::runtime_error` thrown after `n` attempts. -/
structure DecideResult where
  result : Except Nat Direction
  raws : List Nat
  proposals : List Int
deriving Repr

/-- Embedding of the retry loop of `BotClient::decideMove`
(`client_randomio.cpp` lines 110-143).  `hi` is the upper bound of the
`std::uniform_int_distribution` — computed once, before the loop, from
`3 + static_cast<int>(inertia * inertialDamping)` with `inertialDamping`
equal to 1.0 at that point; the assignment `inertialDamping = 0` inside the
loop does not re-create the distribution, so every draw uses the same bound.
`draws k` supplies the raw entropy of the `k`-th call to `dist(rng)`, reduced
modulo `hi + 1` to land uniformly in `[0, hi]`.  A draw exceeding 3 is
replaced by `previousDirection` before being decoded.  The loop throws once
`attempts` reaches 200 (`max_attempts`); `fuel` is the structural-recursion
budget, kept equal to `200 - attempts`. -/
def rawDraw (hi : Nat) (draws : Nat → Nat) (k : Nat) : Nat :=
  draws k % (hi + 1)

/-- The value passed to `getDirectionFromValue` for a given draw: a draw
exceeding 3 is replaced by `previousDirection` (`proposal = previousDirection`
in the source), any other draw is used as the direction code. -/
def proposalOf (previousDirection : Int) (raw : Nat) : Int :=
  if 3 < raw then previousDirection else (raw : Int)

def decideMoveGo (gs : GameState) (p : Player) (decode : Int → Direction)
    (previousDirection : Int) (hi : Nat) (draws : Nat → Nat) :
    Nat → Nat → DecideResult
  | attempts, 0 => ⟨.error attempts, [], []⟩
  | attempts, fuel + 1 =>
    if 200 ≤ attempts then ⟨.error attempts, [], []⟩
    else
      let raw := rawDraw hi draws attempts
      let direction := decode (proposalOf previousDirection raw)
      if is_valid_move gs p direction then
        ⟨.ok direction, [raw], [proposalOf previousDirection raw]⟩
      else
        let r := decideMoveGo gs p decode previousDirection hi draws (attempts + 1) fuel
        ⟨r.result, raw :: r.raws, proposalOf previousDirection raw :: r.proposals⟩

/-- Embedding of `BotClient::decideMove`: the distribution bound is
`3 + inertia` (damping is 1.0 when the distribution is constructed), the
attempt counter starts at 0, `max_attempts = 200`. -/
def decideMove (gs : GameState) (p : Player) (decode : Int → Direction)
    (previousDirection : Int) (inertia : Nat) (draws : Nat → Nat) : DecideResult :=
  decideMoveGo gs p decode previousDirection (3 + inertia) draws 0 200

/-- Embedding of one iteration of `BotClient::run`'s body as it affects
`previousDirection` and the move sent (`client_randomio.cpp` lines 159-168
and 187-196): `sendMove` calls `decideMove`; on success it records the
direction's code in `previousDirection` and sends the move; the `catch` block
swallows any exception, so on exhaustion nothing is sent and the state is
unchanged. -/
def clientTick (decode : Int → Direction) (inertia : Nat) (previousDirection : Int)
    (gs : GameState) (p : Player) (draws : Nat → Nat) : Int × Option Direction :=
  match (decideMove gs p decode previousDirection inertia draws).result with
  | .ok d => (getDirectionValue d, some d)
  | .error _ => (previousDirection, none)

/-- Embedding of `BotClient::run` over an explicit list of per-tick inputs
(the game state, the bot's player, and the tick's entropy): every tick in the
list is processed, because `sendMove` catches the exhaustion exception and
`run`'s `while (connection.isActive())` loop continues. -/
def clientRun (decode : Int → Direction) (inertia : Nat) :
    Int → List (GameState × Player × (Nat → Nat)) → List (Option Direction)
  | _, [] => []
  | prev, (gs, p, draws) :: rest =>
    let step := clientTick decode inertia prev gs p draws
    step.2 :: clientRun decode inertia step.1 rest

/-! ## Server side (`src/src/server/server.cpp`) -/

/-- Per-tick socket oracle: the outcome of the non-blocking socket operations
during one `BroadcastCollect` phase, indexed by the inner-loop iteration `k`.
`buildOk k` is whether building the snapshot packet in `sendGameState`
succeeds (a serialization failure makes it return an empty success list);
`sendOk k id` is whether `clientSocket->send` returns `Done` for `id`;
`recv k id` is the integer direction code delivered by
`clientSocket->receive`, or `none` when the receive is not `Done`;
`deadline k` is whether `clientCommunicationClock` has exceeded
`max_client_communication_time` when checked at the end of iteration `k`. -/
structure CollectOracle where
  buildOk : Nat → Bool
  sendOk : Nat → Id → Bool
  recv : Nat → Id → Option Int
  deadline : Nat → Bool

/-- Embedding of `GameServer::sendGameState` (`server.cpp` lines 160-199) at
inner iteration `k`: with no clients it returns the empty list before
building the packet; a failure while preparing the packet returns the empty
list; otherwise exactly the clients whose `send` succeeds are returned. -/
def sendGameState (o : CollectOracle) (k : Nat) (unsent : List Id) : List Id :=
  if unsent.isEmpty then []
  else if o.buildOk k then unsent.filter (fun id => o.sendOk k id)
  else []

/-- Embedding of `GameServer::receiveClientInput` (`server.cpp` lines
132-158) at inner iteration `k`: for each client whose `receive` returns
`Done`, the packet's integer is recorded — cast straight to `Direction` with
no range check, so the embedded value is the raw `Int`. -/
def receiveClientInput (o : CollectOracle) (k : Nat) (torecv : List Id) :
    List (Id × Int) :=
  torecv.filterMap (fun id => (o.recv k id).map (fun v => (id, v)))

/-- Embedding of the fan-out/fan-in loop of `GameServer::gameLoop`
(`server.cpp` lines 216-243).  State: `unsent` is `clientsUnsent`, `torecv`
is `toRecieve`, `newDirs` the directions recorded so far.  Each iteration
sends to `unsent`, moves successes to `torecv`, receives from the updated
`torecv`, moves successes to `newDirs`; when the deadline has fired the
remaining members of both pending sets are returned as the timed-out set and
the loop breaks.  Returns `none` when `fuel` runs out before the loop exits
(the concrete loop is bounded in wall-clock time by the deadline, not in
iteration count). -/
def collectLoop (o : CollectOracle) :
    Nat → List Id → List Id → List (Id × Int) → Nat →
      Option (List (Id × Int) × List Id)
  | _, unsent, torecv, newDirs, 0 =>
    if unsent.isEmpty && torecv.isEmpty then some (newDirs, []) else none
  | k, unsent, torecv, newDirs, fuel + 1 =>
    if unsent.isEmpty && torecv.isEmpty then some (newDirs, [])
    else
      let sent := sendGameState o k unsent
      let unsent' := unsent.filter (fun id => decide (id ∉ sent))
      let torecv' := torecv ++ sent
      let recvd := receiveClientInput o k torecv'
      let torecv'' := torecv'.filter (fun id => decide (id ∉ recvd.map Prod.fst))
      let newDirs' := newDirs ++ recvd
      if o.deadline k then some (newDirs', unsent' ++ torecv'')
      else collectLoop o (k + 1) unsent' torecv'' newDirs' fuel

/-- The server state the claims are about: the connection registry
(`clientSockets`, keyed by `Id`), the GameModel roster (the set of player
ids `game->getPlayers()` reports), and the frame counter. -/
structure ServerState where
  clientSockets : List Id
  roster : List Id
  frame : Nat
deriving Repr

/-- Embedding of `GameServer::checkPlayers` (`server.cpp` lines 103-130):
every registered connection whose player is no longer in the roster, or
whose transport reports the peer gone (`disconnected`), is removed from both
the registry and (via `removePlayer`) the roster. -/
def checkPlayers (disconnected : Id → Bool) (st : ServerState) : ServerState :=
  let gone := st.clientSockets.filter
    (fun id => !(decide (id ∈ st.roster)) || disconnected id)
  { clientSockets :=
      st.clientSockets.filter (fun id => decide (id ∈ st.roster) && !(disconnected id)),
    roster := st.roster.filter (fun id => decide (id ∉ gone)),
    frame := st.frame }

/-- Result of one completed tick: the new server state, the direction batch
submitted to `GameModel::movePlayers`, and the set of timed-out clients. -/
structure TickResult where
  state : ServerState
  batch : List (Id × Int)
  timedOut : List Id
deriving Repr

/-- Embedding of one iteration of the tick body of `GameServer::gameLoop`
(`server.cpp` lines 205-256): prune dead/disconnected players
(`checkPlayers`), run the broadcast/collect loop, remove every timed-out
client from the roster, the registry and the recorded directions, submit the
surviving directions to `GameModel::movePlayers` as one batch, and increment
`frame` exactly once afterwards.  `movePlayers` is the black-box GameModel
operation, taken as a parameter from roster and batch to the new roster. -/
def serverTick (movePlayers : List Id → List (Id × Int) → List Id)
    (disconnected : Id → Bool) (o : CollectOracle) (fuel : Nat)
    (st : ServerState) : Option TickResult :=
  let st1 := checkPlayers disconnected st
  match collectLoop o 0 st1.clientSockets [] [] fuel with
  | none => none
  | some (newDirs, timedOut) =>
    let roster2 := st1.roster.filter (fun id => decide (id ∉ timedOut))
    let sockets2 := st1.clientSockets.filter (fun id => decide (id ∉ timedOut))
    let batch := newDirs.filter (fun pr => decide (pr.1 ∉ timedOut))
    some { state := { clientSockets := sockets2,
                      roster := movePlayers roster2 batch,
                      frame := st.frame + 1 },
           batch := batch,
           timedOut := timedOut }

/-! ## Accept loop (`GameServer::acceptClients`, `server.cpp` lines 64-95) -/

/-- One poll of the accept loop: either no inbound connection was ready, or a
connection arrived and the handshake observed whether the name was received
(`nameReceived`) and whether sending the colour back succeeded
(`colorSendOk`). -/
inductive AcceptEvent where
  | noConn
  | conn (nameReceived : Bool) (colorSendOk : Bool)
deriving DecidableEq, Repr

/-- Registration state shared by the accept loop and the game:
`nextId` models GameModel assigning a fresh id on `addPlayer` (ids are
unique and never reused). -/
structure AcceptState where
  nextId : Nat
  roster : List Id
  sockets : List Id
deriving DecidableEq, Repr

/-- Embedding of the body of `GameServer::acceptClients` for one inbound
poll.  When no connection is ready nothing changes.  When a connection
arrives, a failed name receive leaves both maps untouched; once the name is
received, `game->addPlayer` runs and the socket is stored in
`clientSockets[id]` — a failure of the colour send is only logged
(`spdlog::critical`) and does not stop the registration. -/
def acceptStep (ev : AcceptEvent) (st : AcceptState) : AcceptState :=
  match ev with
  | .noConn => st
  | .conn false _ => st
  | .conn true _ =>
    { nextId := st.nextId + 1,
      roster := st.roster ++ [st.nextId],
      sockets := st.sockets ++ [st.nextId] }

/-- Embedding of the `while (acceptingClients && clientSockets.size() <
maxClients)` loop of `GameServer::acceptClients` over an explicit trace of
polls, each carrying the value of the `acceptingClients` flag observed at
the top of the iteration.  Once the condition fails the function returns;
no later event is examined. -/
def acceptClients (maxClients : Nat) :
    AcceptState → List (Bool × AcceptEvent) → AcceptState
  | st, [] => st
  | st, (flag, ev) :: rest =>
    if flag && decide (st.sockets.length < maxClients) then
      acceptClients maxClients (acceptStep ev st) rest
    else st

/-! ## Concrete fixtures used by witnesses and counterexamples -/

/-- A 10×10 grid with a single player at (5,5) and no trail (the spec's open
scenario). -/
def gsOpen : GameState := ⟨10, 10, [⟨5, 5⟩], [], 0⟩

/-- The single player of `gsOpen`. -/
def pOpen : Player := ⟨⟨5, 5⟩⟩

/-- A 1×1 grid: every move leaves the grid, so no valid move exists. -/
def gsBlocked : GameState := ⟨1, 1, [⟨0, 0⟩], [], 0⟩

/-- The single player of `gsBlocked`. -/
def pBlocked : Player := ⟨⟨0, 0⟩⟩

/-- A GameModel instance whose `movePlayers` keeps the roster unchanged. -/
def idMovePlayers : List Id → List (Id × Int) → List Id := fun ros _ => ros

/-- A transport where no peer is reported gone. -/
def noDisconnect : Id → Bool := fun _ => false

/-- An oracle where every send fails and the deadline fires at once. -/
def oStall : CollectOracle := ⟨fun _ => true, fun _ _ => false, fun _ _ => none, fun _ => true⟩

/-- An oracle where every send succeeds and every client answers `42`. -/
def oAll42 : CollectOracle := ⟨fun _ => true, fun _ _ => true, fun _ _ => some 42, fun _ => false⟩

/-! ## Lemmas about the bot's retry loop -/

lemma decideMoveGo_result_ok (gs : GameState) (p : Player) (decode : Int → Direction)
    (prev : Int) (hi : Nat) (draws : Nat → Nat) :
    ∀ fuel attempts d,
      (decideMoveGo gs p decode prev hi draws attempts fuel).result = .ok d →
      is_valid_move gs p d = true := by
  intro fuel
  induction fuel with
  | zero => intro attempts d h; simp [decideMoveGo] at h
  | succ n ih =>
    intro attempts d h
    simp only [decideMoveGo] at h
    split at h
    · simp at h
    · split at h
      · rename_i hvalid
        simp only [Except.ok.injEq] at h
        exact h ▸ hvalid
      · exact ih _ _ (by simpa using h)

lemma decideMoveGo_result_error (gs : GameState) (p : Player) (decode : Int → Direction)
    (prev : Int) (hi : Nat) (draws : Nat → Nat) :
    ∀ fuel attempts n, attempts + fuel = 200 →
      (decideMoveGo gs p decode prev hi draws attempts fuel).result = .error n →
      n = 200 := by
  intro fuel
  induction fuel with
  | zero =>
    intro attempts n hsum h
    simp only [decideMoveGo, Except.error.injEq] at h
    omega
  | succ m ih =>
    intro attempts n hsum h
    simp only [decideMoveGo] at h
    split at h
    · rename_i ha
      simp only [Except.error.injEq] at h
      omega
    · split at h
      · simp at h
      · exact ih (attempts + 1) n (by omega) (by simpa using h)

lemma decideMoveGo_proposals_eq_map (gs : GameState) (p : Player) (decode : Int → Direction)
    (prev : Int) (hi : Nat) (draws : Nat → Nat) :
    ∀ fuel attempts,
      (decideMoveGo gs p decode prev hi draws attempts fuel).proposals =
        (decideMoveGo gs p decode prev hi draws attempts fuel).raws.map
          (proposalOf prev) := by
  intro fuel
  induction fuel with
  | zero => intro attempts; simp [decideMoveGo]
  | succ m ih =>
    intro attempts
    simp only [decideMoveGo]
    split
    · simp
    · split
      · simp
      · simpa using ih (attempts + 1)

/-- C1: `decideMove` either returns a direction that satisfies the validity
predicate `is_valid_move` (inside grid, no player collision, no trail), or
raises the search-exhaustion error after exactly 200 attempts; it never
returns an invalid direction. -/
theorem decideMove_valid_or_exhausts (gs : GameState) (p : Player)
    (decode : Int → Direction) (prev : Int) (inertia : Nat) (draws : Nat → Nat) :
    (∀ d, (decideMove gs p decode prev inertia draws).result = .ok d →
      is_valid_move gs p d = true) ∧
    (∀ n, (decideMove gs p decode prev inertia draws).result = .error n →
      n = 200) :=
  ⟨fun d h => decideMoveGo_result_ok gs p decode prev (3 + inertia) draws 200 0 d h,
   fun n h => decideMoveGo_result_error gs p decode prev (3 + inertia) draws 200 0 n rfl h⟩

/-- Witness for C1: on the open 10×10 scenario the first draw (code 0, Up)
is returned and is valid; on the blocked 1×1 scenario the error carries
exactly 200 attempts. -/
theorem decideMove_valid_or_exhausts_witness :
    is_valid_move gsOpen pOpen Direction.up = true ∧
    (decideMove gsBlocked pBlocked getDirectionFromValue (-1) 30 (fun _ => 10)).result =
      Except.error 200 :=
  ⟨(decideMove_valid_or_exhausts gsOpen pOpen getDirectionFromValue (-1) 30
      (fun _ => 0)).1 Direction.up rfl,
   rfl⟩

/-- C4 (code bug): `inertialDamping = 0` is assigned inside the retry loop,
but the `std::uniform_int_distribution` was constructed once before the loop,
so the assignment never narrows the range.  Concretely, with `inertia = 30`
(bound `3 + 30 = 33`) and every raw draw equal to 10: the first draw is 10,
which exceeds 3 and triggers the repeat-previous-direction branch (setting
damping to 0), yet the second draw is again 10 — still outside `[0, 3]`,
contradicting the claim that all subsequent draws use the unwidened range.
The proposals trace shows both draws were reinterpreted as the previous
direction (-1). -/
theorem decideMove_damping_has_no_effect :
    (decideMove gsBlocked pBlocked getDirectionFromValue (-1) 30
        (fun _ => 10)).raws.take 2 = [10, 10] ∧
    (decideMove gsBlocked pBlocked getDirectionFromValue (-1) 30
        (fun _ => 10)).proposals.take 2 = [-1, -1] :=
  ⟨rfl, rfl⟩

/-- C8: on the first `decideMove` call of a client's run, `previousDirection`
is still its initial value -1, so every draw exceeding the 3 legal direction
codes makes the loop pass -1 to `getDirectionFromValue` — the `proposals`
trace records exactly the arguments handed to the decoder. -/
theorem decideMove_first_call_passes_neg_one (gs : GameState) (p : Player)
    (decode : Int → Direction) (inertia : Nat) (draws : Nat → Nat)
    (k : Nat) (raw : Nat)
    (hk : (decideMove gs p decode (-1) inertia draws).raws[k]? = some raw)
    (hraw : 3 < raw) :
    (decideMove gs p decode (-1) inertia draws).proposals[k]? = some (-1) := by
  have hmap := decideMoveGo_proposals_eq_map gs p decode (-1) (3 + inertia) draws 200 0
  unfold decideMove at hk ⊢
  rw [hmap, List.getElem?_map, hk]
  simp [proposalOf, hraw]

set_option maxRecDepth 4000 in
/-- Witness for C8: in the blocked scenario with constant raw entropy 10, the
first draw is 10 > 3 and the first decoder argument is -1. -/
theorem decideMove_first_call_passes_neg_one_witness :
    (decideMove gsBlocked pBlocked getDirectionFromValue (-1) 30
        (fun _ => 10)).proposals[0]? = some (-1) :=
  decideMove_first_call_passes_neg_one gsBlocked pBlocked getDirectionFromValue 30
    (fun _ => 10) 0 10 rfl (by decide)

/-- C2 (counterexample): a run in which the first tick exhausts the 200
attempts (the 1×1 blocked grid) and the second tick nevertheless executes and
sends a move — the exhaustion exception is caught inside `sendMove`, so the
run loop does not terminate, contrary to the claim that exhaustion is fatal
for the client's run loop. -/
theorem clientRun_continues_after_exhaustion :
    clientRun getDirectionFromValue 30 (-1)
      [(gsBlocked, pBlocked, fun _ => 10), (gsOpen, pOpen, fun _ => 0)] =
      [none, some Direction.up] :=
  rfl

/-- C2 (amended): when `decideMove` exhausts its 200-attempt cap, the thrown
exception is caught by `sendMove`'s catch block: the failure is only logged,
no move is sent for that tick, `previousDirection` is unchanged, and the run
loop continues with the remaining ticks. -/
theorem clientTick_exhaustion_caught (decode : Int → Direction) (inertia : Nat)
    (prev : Int) (gs : GameState) (p : Player) (draws : Nat → Nat)
    (rest : List (GameState × Player × (Nat → Nat))) (n : Nat)
    (h : (decideMove gs p decode prev inertia draws).result = .error n) :
    clientRun decode inertia prev ((gs, p, draws) :: rest) =
      none :: clientRun decode inertia prev rest := by
  simp [clientRun, clientTick, h]

/-- Witness for C2's amended theorem: the blocked scenario exhausts and the
run continues into an empty remainder. -/
theorem clientTick_exhaustion_caught_witness :
    clientRun getDirectionFromValue 30 (-1) [(gsBlocked, pBlocked, fun _ => 10)] =
      none :: clientRun getDirectionFromValue 30 (-1) [] :=
  clientTick_exhaustion_caught getDirectionFromValue 30 (-1) gsBlocked pBlocked
    (fun _ => 10) [] 200 rfl

/-! ## Lemmas about the server tick -/

/-- The oracle in which snapshot construction fails and the deadline fires at
once. -/
def oBuildFail : CollectOracle :=
  ⟨fun _ => false, fun _ _ => false, fun _ _ => none, fun _ => true⟩

lemma serverTick_inv (mp : List Id → List (Id × Int) → List Id) (dc : Id → Bool)
    (o : CollectOracle) (fuel : Nat) (st : ServerState) (r : TickResult)
    (h : serverTick mp dc o fuel st = some r) :
    ∃ nd t,
      collectLoop o 0 (checkPlayers dc st).clientSockets [] [] fuel = some (nd, t) ∧
      r.timedOut = t ∧
      r.batch = nd.filter (fun pr => decide (pr.1 ∉ t)) ∧
      r.state.clientSockets =
        (checkPlayers dc st).clientSockets.filter (fun id => decide (id ∉ t)) ∧
      r.state.roster =
        mp ((checkPlayers dc st).roster.filter (fun id => decide (id ∉ t)))
          (nd.filter (fun pr => decide (pr.1 ∉ t))) ∧
      r.state.frame = st.frame + 1 := by
  simp only [serverTick] at h
  cases hc : collectLoop o 0 (checkPlayers dc st).clientSockets [] [] fuel with
  | none => rw [hc] at h; simp at h
  | some pr =>
    obtain ⟨nd, t⟩ := pr
    rw [hc] at h
    simp only [Option.some.injEq] at h
    exact ⟨nd, t, rfl, by rw [← h], by rw [← h], by rw [← h], by rw [← h], by rw [← h]⟩

lemma receiveClientInput_nil (o : CollectOracle) (k : Nat) :
    receiveClientInput o k [] = [] := rfl

lemma filter_not_mem_nil (l : List Id) :
    l.filter (fun id => decide (id ∉ ([] : List Id))) = l := by
  simp

lemma collectLoop_buildFail (o : CollectOracle) (hb : ∀ k, o.buildOk k = false) :
    ∀ fuel k unsent nd res,
      collectLoop o k unsent [] nd fuel = some res → res.1 = nd := by
  intro fuel
  induction fuel with
  | zero =>
    intro k unsent nd res h
    simp only [collectLoop] at h
    split at h
    · simp only [Option.some.injEq] at h
      rw [← h]
    · simp at h
  | succ m ih =>
    intro k unsent nd res h
    simp only [collectLoop] at h
    split at h
    · simp only [Option.some.injEq] at h
      rw [← h]
    · have hsent : sendGameState o k unsent = [] := by
        unfold sendGameState
        rw [hb k]
        split <;> simp
      rw [hsent] at h
      simp only [List.append_nil, List.nil_append, receiveClientInput_nil,
        List.filter_nil, filter_not_mem_nil] at h
      split at h
      · simp only [Option.some.injEq] at h
        rw [← h]
      · exact ih (k + 1) unsent nd res h

lemma collectLoop_progress (o : CollectOracle) (id : Id) (v : Int)
    (hbuild : ∀ k, o.buildOk k = true)
    (hsend : ∀ k, o.sendOk k id = true)
    (hrecv : ∀ k, o.recv k id = some v) :
    ∀ fuel k unsent torecv nd res,
      collectLoop o k unsent torecv nd fuel = some res →
      (id ∈ unsent ∨ id ∈ torecv ∨ (id, v) ∈ nd) →
      (id, v) ∈ res.1 ∧ id ∉ res.2 := by
  intro fuel
  induction fuel with
  | zero =>
    intro k unsent torecv nd res h hin
    simp only [collectLoop] at h
    split at h
    · rename_i hempty
      rw [Bool.and_eq_true, List.isEmpty_iff, List.isEmpty_iff] at hempty
      obtain ⟨h1, h2⟩ := hempty
      subst h1; subst h2
      simp only [Option.some.injEq] at h
      rcases hin with h3 | h3 | h3
      · exact absurd h3 (List.not_mem_nil id)
      · exact absurd h3 (List.not_mem_nil id)
      · rw [← h]; exact ⟨h3, List.not_mem_nil id⟩
    · simp at h
  | succ m ih =>
    intro k unsent torecv nd res h hin
    simp only [collectLoop] at h
    split at h
    · rename_i hempty
      rw [Bool.and_eq_true, List.isEmpty_iff, List.isEmpty_iff] at hempty
      obtain ⟨h1, h2⟩ := hempty
      subst h1; subst h2
      simp only [Option.some.injEq] at h
      rcases hin with h3 | h3 | h3
      · exact absurd h3 (List.not_mem_nil id)
      · exact absurd h3 (List.not_mem_nil id)
      · rw [← h]; exact ⟨h3, List.not_mem_nil id⟩
    · rename_i hne
      -- facts about one iteration
      have hmemsent : id ∈ unsent → id ∈ sendGameState o k unsent := by
        intro hu
        have hnil : ¬ unsent.isEmpty = true := by
          rw [List.isEmpty_iff]
          intro he
          rw [he] at hu
          exact absurd hu (List.not_mem_nil id)
        unfold sendGameState
        rw [hbuild k, if_neg hnil, if_pos rfl]
        exact List.mem_filter.mpr ⟨hu, hsend k⟩
      have hnotunsent :
          id ∉ unsent.filter (fun i => decide (i ∉ sendGameState o k unsent)) := by
        intro hmem
        obtain ⟨hu, hdec⟩ := List.mem_filter.mp hmem
        exact (of_decide_eq_true hdec) (hmemsent hu)
      have hmemrecvd : ∀ torecv' : List Id, id ∈ torecv' →
          (id, v) ∈ receiveClientInput o k torecv' := by
        intro torecv' hmem
        unfold receiveClientInput
        exact List.mem_filterMap.mpr ⟨id, hmem, by rw [hrecv k]; rfl⟩
      have hnottorecv : ∀ torecv' : List Id,
          id ∉ torecv'.filter
            (fun i => decide (i ∉ (receiveClientInput o k torecv').map Prod.fst)) := by
        intro torecv' hmem
        obtain ⟨ht, hdec⟩ := List.mem_filter.mp hmem
        exact (of_decide_eq_true hdec)
          (List.mem_map.mpr ⟨(id, v), hmemrecvd torecv' ht, rfl⟩)
      have hnd' : (id, v) ∈ nd ++ receiveClientInput o k
          (torecv ++ sendGameState o k unsent) := by
        rcases hin with h3 | h3 | h3
        · exact List.mem_append.mpr (Or.inr
            (hmemrecvd _ (List.mem_append.mpr (Or.inr (hmemsent h3)))))
        · exact List.mem_append.mpr (Or.inr
            (hmemrecvd _ (List.mem_append.mpr (Or.inl h3))))
        · exact List.mem_append.mpr (Or.inl h3)
      split at h
      · simp only [Option.some.injEq] at h
        rw [← h]
        refine ⟨hnd', ?_⟩
        intro hmem
        rcases List.mem_append.mp hmem with h4 | h4
        · exact hnotunsent h4
        · exact hnottorecv _ h4
      · exact ih (k + 1) _ _ _ res h (Or.inr (Or.inr hnd'))

lemma serverTick_batch_mem (mp : List Id → List (Id × Int) → List Id)
    (dc : Id → Bool) (o : CollectOracle) (fuel : Nat) (st : ServerState)
    (r : TickResult) (id : Id) (v : Int)
    (hbuild : ∀ k, o.buildOk k = true)
    (hsend : ∀ k, o.sendOk k id = true)
    (hrecv : ∀ k, o.recv k id = some v)
    (hid : id ∈ (checkPlayers dc st).clientSockets)
    (h : serverTick mp dc o fuel st = some r) :
    (id, v) ∈ r.batch ∧ id ∉ r.timedOut := by
  obtain ⟨nd, t, hc, ht, hb, _, _, _⟩ := serverTick_inv mp dc o fuel st r h
  obtain ⟨h1, h2⟩ := collectLoop_progress o id v hbuild hsend hrecv fuel 0
    (checkPlayers dc st).clientSockets [] [] (nd, t) hc (Or.inl hid)
  refine ⟨?_, ht ▸ h2⟩
  rw [hb]
  exact List.mem_filter.mpr ⟨h1, decide_eq_true h2⟩

/-- C3: every client still pending (unsent or unanswered) when the collection
deadline fires is timed out: no direction for it is in the batch submitted to
`GameModel::movePlayers`, its connection is gone from the registry, and —
provided `movePlayers` never adds players to the roster (it only moves or
kills existing ones) — it is absent from the roster at the start of the next
tick. -/
theorem serverTick_timedOut_excluded (mp : List Id → List (Id × Int) → List Id)
    (dc : Id → Bool) (o : CollectOracle) (fuel : Nat) (st : ServerState)
    (r : TickResult)
    (hmp : ∀ ros b id, id ∈ mp ros b → id ∈ ros)
    (h : serverTick mp dc o fuel st = some r) :
    ∀ id ∈ r.timedOut,
      (∀ v, (id, v) ∉ r.batch) ∧
      id ∉ r.state.clientSockets ∧
      id ∉ r.state.roster := by
  obtain ⟨nd, t, _, ht, hb, hs, hr, _⟩ := serverTick_inv mp dc o fuel st r h
  intro id hto
  rw [ht] at hto
  refine ⟨?_, ?_, ?_⟩
  · intro v hmem
    rw [hb] at hmem
    exact (of_decide_eq_true (List.mem_filter.mp hmem).2) hto
  · intro hmem
    rw [hs] at hmem
    exact (of_decide_eq_true (List.mem_filter.mp hmem).2) hto
  · intro hmem
    rw [hr] at hmem
    exact (of_decide_eq_true (List.mem_filter.mp (hmp _ _ _ hmem)).2) hto

/-- Witness for C3: one registered client, every send fails, the deadline
fires on the first iteration — the client is timed out and excluded from
batch, registry and roster. -/
theorem serverTick_timedOut_excluded_witness :
    (∀ v, ((1 : Id), v) ∉ (TickResult.mk ⟨[], [], 8⟩ [] [1]).batch) ∧
    (1 : Id) ∉ (TickResult.mk ⟨[], [], 8⟩ [] [1]).state.clientSockets ∧
    (1 : Id) ∉ (TickResult.mk ⟨[], [], 8⟩ [] [1]).state.roster :=
  serverTick_timedOut_excluded idMovePlayers noDisconnect oStall 1 ⟨[1], [1], 7⟩
    ⟨⟨[], [], 8⟩, [], [1]⟩ (fun _ _ _ hm => hm) rfl 1 (by simp)

/-- C5: a completed tick increments the frame counter exactly once, and the
roster it hands to the next tick is the result of a single
`GameModel::movePlayers` call on the full collected batch — the frame
increment is attached to the state that already carries `movePlayers`'s
result, i.e. it happens after the batch is applied. -/
theorem serverTick_frame_increment (mp : List Id → List (Id × Int) → List Id)
    (dc : Id → Bool) (o : CollectOracle) (fuel : Nat) (st : ServerState)
    (r : TickResult) (h : serverTick mp dc o fuel st = some r) :
    r.state.frame = st.frame + 1 ∧
    r.state.roster =
      mp ((checkPlayers dc st).roster.filter (fun id => decide (id ∉ r.timedOut)))
        r.batch := by
  obtain ⟨nd, t, _, ht, hb, _, hr, hf⟩ := serverTick_inv mp dc o fuel st r h
  exact ⟨hf, by rw [hr, ht, hb]⟩

/-- Witness for C5: one client answers 42 before the deadline; the frame goes
from 7 to 8 and the roster is `movePlayers` of the pruned roster and the
batch. -/
theorem serverTick_frame_increment_witness :
    (TickResult.mk ⟨[1], [1], 8⟩ [(1, 42)] []).state.frame = 7 + 1 ∧
    (TickResult.mk ⟨[1], [1], 8⟩ [(1, 42)] []).state.roster =
      idMovePlayers
        ((checkPlayers noDisconnect ⟨[1], [1], 7⟩).roster.filter
          (fun id => decide (id ∉ (TickResult.mk ⟨[1], [1], 8⟩ [(1, 42)] []).timedOut)))
        (TickResult.mk ⟨[1], [1], 8⟩ [(1, 42)] []).batch :=
  serverTick_frame_increment idMovePlayers noDisconnect oAll42 1 ⟨[1], [1], 7⟩
    ⟨⟨[1], [1], 8⟩, [(1, 42)], []⟩ rfl

/-- C7: a snapshot-construction failure (the `buildOk` oracle reports false
for the whole tick) leaves the direction batch empty while the tick still
completes and advances the frame — the server does not stall.  And
per-connection send/receive errors are local: whatever the oracle does for
other connections, a connection whose own sends and receives succeed has its
direction in the batch and is not timed out. -/
theorem serverTick_snapshot_failure_tick_advances :
    (∀ (mp : List Id → List (Id × Int) → List Id) (dc : Id → Bool)
        (o : CollectOracle) (fuel : Nat) (st : ServerState) (r : TickResult),
      (∀ k, o.buildOk k = false) → serverTick mp dc o fuel st = some r →
        r.batch = [] ∧ r.state.frame = st.frame + 1) ∧
    (∀ (mp : List Id → List (Id × Int) → List Id) (dc : Id → Bool)
        (o : CollectOracle) (fuel : Nat) (st : ServerState) (r : TickResult)
        (id : Id) (v : Int),
      (∀ k, o.buildOk k = true) → (∀ k, o.sendOk k id = true) →
      (∀ k, o.recv k id = some v) → id ∈ (checkPlayers dc st).clientSockets →
      serverTick mp dc o fuel st = some r →
        (id, v) ∈ r.batch ∧ id ∉ r.timedOut) := by
  constructor
  · intro mp dc o fuel st r hbf h
    obtain ⟨nd, t, hc, _, hb, _, _, hf⟩ := serverTick_inv mp dc o fuel st r h
    have hnd : nd = [] := collectLoop_buildFail o hbf fuel 0 _ [] (nd, t) hc
    exact ⟨by rw [hb, hnd]; rfl, hf⟩
  · intro mp dc o fuel st r id v hbuild hsend hrecv hid h
    exact serverTick_batch_mem mp dc o fuel st r id v hbuild hsend hrecv hid h

/-- Witness for C7: with a failing snapshot the batch is empty and the frame
still advances; with a healthy connection the direction 42 reaches the batch
and the client is not timed out. -/
theorem serverTick_snapshot_failure_tick_advances_witness :
    ((TickResult.mk ⟨[], [], 8⟩ [] [1]).batch = [] ∧
      (TickResult.mk ⟨[], [], 8⟩ [] [1]).state.frame = 7 + 1) ∧
    (((1 : Id), (42 : Int)) ∈ (TickResult.mk ⟨[1], [1], 8⟩ [(1, 42)] []).batch ∧
      (1 : Id) ∉ (TickResult.mk ⟨[1], [1], 8⟩ [(1, 42)] []).timedOut) :=
  ⟨serverTick_snapshot_failure_tick_advances.1 idMovePlayers noDisconnect oBuildFail
      1 ⟨[1], [1], 7⟩ ⟨⟨[], [], 8⟩, [], [1]⟩ (fun _ => rfl) rfl,
   serverTick_snapshot_failure_tick_advances.2 idMovePlayers noDisconnect oAll42
      1 ⟨[1], [1], 7⟩ ⟨⟨[1], [1], 8⟩, [(1, 42)], []⟩ 1 42
      (fun _ => rfl) (fun _ => rfl) (fun _ => rfl) (by decide) rfl⟩

/-- C9: the server records the received integer cast straight to `Direction`
with no range check, so for every integer `v` a client manages to send before
the deadline — including values outside the 0..3 direction-code range — the
pair `(id, v)` enters the batch handed to `GameModel::movePlayers`. -/
theorem serverTick_unvalidated_direction_in_batch
    (mp : List Id → List (Id × Int) → List Id) (dc : Id → Bool)
    (o : CollectOracle) (fuel : Nat) (st : ServerState) (r : TickResult)
    (id : Id) (v : Int)
    (hbuild : ∀ k, o.buildOk k = true)
    (hsend : ∀ k, o.sendOk k id = true)
    (hrecv : ∀ k, o.recv k id = some v)
    (hid : id ∈ (checkPlayers dc st).clientSockets)
    (h : serverTick mp dc o fuel st = some r) :
    (id, v) ∈ r.batch :=
  (serverTick_batch_mem mp dc o fuel st r id v hbuild hsend hrecv hid h).1

/-- Witness for C9: the out-of-range direction code 42 reaches the batch. -/
theorem serverTick_unvalidated_direction_in_batch_witness :
    ((1 : Id), (42 : Int)) ∈ (TickResult.mk ⟨[1], [1], 8⟩ [(1, 42)] []).batch :=
  serverTick_unvalidated_direction_in_batch idMovePlayers noDisconnect oAll42 1
    ⟨[1], [1], 7⟩ ⟨⟨[1], [1], 8⟩, [(1, 42)], []⟩ 1 42
    (fun _ => rfl) (fun _ => rfl) (fun _ => rfl) (by decide) rfl

/-- C6 (counterexample): a handshake in which the name is received but
sending the colour back fails — the claim says the connection map and roster
mutate only when the full handshake succeeds, yet the code registers the
socket and keeps the player anyway (the failed send is merely logged). -/
theorem acceptStep_registers_on_color_send_failure :
    acceptStep (.conn true false) ⟨0, [], []⟩ = ⟨1, [0], [0]⟩ := rfl

/-- C6 (amended): the connection-map and roster mutations occur exactly when
the connection is accepted and the display name is received; a failure to
send the colour back is logged but does not prevent registration, and on a
failed name receive (or no inbound connection) nothing is mutated. -/
theorem acceptStep_mutation_characterization (st : AcceptState) (b : Bool) :
    acceptStep .noConn st = st ∧
    acceptStep (.conn false b) st = st ∧
    acceptStep (.conn true b) st =
      ⟨st.nextId + 1, st.roster ++ [st.nextId], st.sockets ++ [st.nextId]⟩ :=
  ⟨rfl, rfl, rfl⟩

/-- C10: once the accept loop's condition is false at the top of an
iteration — the accepting flag cleared, or the registered-connection count at
`maxClients` — the loop returns at once and none of the later inbound events
is examined, whatever they are; and a server tick never adds a connection to
the registry, so a roster that later drops below capacity cannot cause a new
registration. -/
theorem accept_loop_exit_permanent :
    (∀ (maxClients : Nat) (st : AcceptState) (flag : Bool) (ev : AcceptEvent)
        (rest : List (Bool × AcceptEvent)),
      (flag && decide (st.sockets.length < maxClients)) = false →
      acceptClients maxClients st ((flag, ev) :: rest) = st) ∧
    (∀ (mp : List Id → List (Id × Int) → List Id) (dc : Id → Bool)
        (o : CollectOracle) (fuel : Nat) (st : ServerState) (r : TickResult),
      serverTick mp dc o fuel st = some r →
      ∀ id ∈ r.state.clientSockets, id ∈ st.clientSockets) := by
  constructor
  · intro maxClients st flag ev rest hcond
    simp [acceptClients, hcond]
  · intro mp dc o fuel st r h id hmem
    obtain ⟨nd, t, _, _, _, hs, _, _⟩ := serverTick_inv mp dc o fuel st r h
    rw [hs] at hmem
    have h1 := (List.mem_filter.mp hmem).1
    exact (List.mem_filter.mp h1).1

/-- Witness for C10: with `maxClients = 1` and one registered connection, an
inbound handshake event is ignored and the state is unchanged; and the
completed tick's registry is contained in the starting registry. -/
theorem accept_loop_exit_permanent_witness :
    acceptClients 1 ⟨6, [5], [5]⟩ [(true, .conn true true)] = ⟨6, [5], [5]⟩ ∧
    (∀ id ∈ (TickResult.mk ⟨[1], [1], 8⟩ [(1, 42)] []).state.clientSockets,
      id ∈ (ServerState.mk [1] [1] 7).clientSockets) :=
  ⟨accept_loop_exit_permanent.1 1 ⟨6, [5], [5]⟩ true (.conn true true) [] rfl,
   accept_loop_exit_permanent.2 idMovePlayers noDisconnect oAll42 1 ⟨[1], [1], 7⟩
      ⟨⟨[1], [1], 8⟩, [(1, 42)], []⟩ rfl⟩

end Cycles
